import Mathlib

/-!
Verification of the pfSense configuration synchronization module
(`backend/app/pfsense/utils.py`): transport session opening (`connect`),
the fetch/push orchestrators, the XML codec round-trip, and the semantic
validator (`validate_pfsense_config` and its two DHCP helper checks).

Python-level behaviours are embedded shallowly: machine strings are Lean
`String`s, IPv4 addresses are `Nat` values below `2^32`, Python exceptions
are an explicit `Except` layer, and the I/O steps of the orchestrators are
driven by an explicit environment recording which remote call raises.
-/

namespace PfSense

/-- Python exception kinds relevant to the validator: `ipaddress` raises
`ValueError` on malformed addresses, attribute access on `None` raises
`AttributeError`. -/
inductive PyExc where
  | valueError
  | attributeError
deriving DecidableEq, Repr

/-! ## IPv4 parsing (`ipaddress.IPv4Address` / `ipaddress.IPv4Network`) -/

/-- Split a character list at every dot, mirroring how
`ipaddress.IPv4Address` splits the address string into octet fields. -/
def splitDots : List Char → List (List Char)
  | [] => [[]]
  | c :: rest =>
    let r := splitDots rest
    if c = '.' then [] :: r
    else
      match r with
      | [] => [[c]]
      | h :: t => (c :: h) :: t

/-- Parse one octet field the way `ipaddress._parse_octet` does: only ASCII
digits, at most three of them, no leading zero, value at most 255. -/
def parseOctet (l : List Char) : Option Nat :=
  if l = [] then none
  else if ¬ l.all (fun c => c.isDigit) then none
  else if 1 < l.length ∧ l.head? = some '0' then none
  else if 3 < l.length then none
  else
    let n := l.foldl (fun a c => a * 10 + (c.toNat - 48)) 0
    if n ≤ 255 then some n else none

/-- Parse a dotted-quad IPv4 address into its 32-bit numeric value;
`none` models `ipaddress.IPv4Address` raising `ValueError`. -/
def parseIPv4 (s : String) : Option Nat :=
  match (splitDots s.data).mapM parseOctet with
  | some [a, b, c, d] => some (((a * 256 + b) * 256 + c) * 256 + d)
  | _ => none

/-- `ipaddress.IPv4Address(s)` in the exception-aware layer. -/
def pyIPv4Address (s : String) : Except PyExc Nat :=
  match parseIPv4 s with
  | some n => .ok n
  | none => .error .valueError

/-- `ipaddress.IPv4Network(f"{ipaddr}/{subnet}", strict=False)`: the address
must parse and the prefix length must be at most 32, otherwise `ValueError`.
The network is kept as the raw address paired with the prefix length
(`strict=False` masks host bits, which membership below reproduces). -/
def pyIPv4Network (ipaddr : String) (subnet : Nat) : Except PyExc (Nat × Nat) :=
  match parseIPv4 ipaddr with
  | none => .error .valueError
  | some ip => if subnet ≤ 32 then .ok (ip, subnet) else .error .valueError

/-- Python `ip in network`: the two addresses agree on the network prefix. -/
def inNetwork (net : Nat × Nat) (ip : Nat) : Bool :=
  ip / 2 ^ (32 - net.2) = net.1 / 2 ^ (32 - net.2)

/-! ## Config schema

Modelled from the spec: the Pydantic models of
`app/pfsense/config/schema.py` are not under `src/` (only `utils.py` uses
them). Spec section 3 gives the shape: `system.hostname`,
`interfaces.lan.{ipaddr, subnet}`, `dhcpd.lan.range.{from, to}` with
optional endpoints, and `users`/`groups`/`staticMaps` as ordered sequences.
Sections the validator guards with truthiness tests or a catch-all
`except` (`dhcpd` and its children, and top-level sections whose absence
surfaces as `AttributeError`) are `Option`s. -/

structure DhcpRange where
  from_ : Option String
  to_ : Option String
deriving DecidableEq, Repr

structure DhcpdLan where
  range : Option DhcpRange
deriving DecidableEq, Repr

structure Dhcpd where
  lan : Option DhcpdLan
deriving DecidableEq, Repr

structure LanInterface where
  ipaddr : String
  subnet : Nat
deriving DecidableEq, Repr

structure Interfaces where
  lan : LanInterface
deriving DecidableEq, Repr

structure SystemSection where
  hostname : String
deriving DecidableEq, Repr

structure PfSenseConfig where
  system : Option SystemSection
  interfaces : Option Interfaces
  dhcpd : Option Dhcpd
  users : List String
  groups : List String
  staticMaps : List String
deriving DecidableEq, Repr

/-- Python attribute access: `None` raises `AttributeError`. -/
def getAttr {α : Type} : Option α → Except PyExc α
  | some a => .ok a
  | none => .error .attributeError

/-- Python truthiness of an optional string: `None` and `""` are falsy. -/
def optStrTruthy : Option String → Bool
  | none => false
  | some s => !(s = "")

/-- The guard `config.dhcpd and config.dhcpd.lan and config.dhcpd.lan.range`:
the range object when the whole chain is present. -/
def rangeOf (c : PfSenseConfig) : Option DhcpRange :=
  match c.dhcpd with
  | none => none
  | some d =>
    match d.lan with
    | none => none
    | some l => l.range

/-! ## Validator (`_validate_dhcp_range_consistency`,
`_validate_dhcp_subnet_consistency`, `validate_pfsense_config`) -/

/-- `_validate_dhcp_range_consistency`: vacuously true when the dhcpd chain
or an endpoint is missing; otherwise parse both endpoints and require
`from < to`. A `ValueError` from parsing is caught and turned into
`return False` (the function's own `except ValueError` handler). -/
def validate_dhcp_range_consistency (c : PfSenseConfig) : Except PyExc Bool :=
  match rangeOf c with
  | none => .ok true
  | some r =>
    if optStrTruthy r.from_ && optStrTruthy r.to_ then
      match parseIPv4 (r.from_.getD ""), parseIPv4 (r.to_.getD "") with
      | some fip, some tip => .ok (decide (fip < tip))
      | _, _ => .ok false
    else .ok true

/-- `_validate_dhcp_subnet_consistency`: builds the LAN network first
(`ValueError` there is swallowed by the outer handler, yielding `True`),
then checks both endpoints, when present and parseable, for membership;
parse failures of the endpoints are swallowed by the inner handler
(yielding `True`). Accessing `config.interfaces` when the section is
missing raises `AttributeError`, which no handler in this function
catches. -/
def validate_dhcp_subnet_consistency (c : PfSenseConfig) : Except PyExc Bool :=
  match c.interfaces with
  | none => .error .attributeError
  | some ifs =>
    match pyIPv4Network ifs.lan.ipaddr ifs.lan.subnet with
    | .error _ => .ok true
    | .ok net =>
      match rangeOf c with
      | none => .ok true
      | some r =>
        if optStrTruthy r.from_ && optStrTruthy r.to_ then
          match parseIPv4 (r.from_.getD ""), parseIPv4 (r.to_.getD "") with
          | some fip, some tip => .ok (inNetwork net fip && inNetwork net tip)
          | _, _ => .ok true
        else .ok true

/-- The body of `validate_pfsense_config`'s `try` block: hostname check,
LAN address check, then the two DHCP checks, each failure returning
`False` immediately. -/
def validateBody (c : PfSenseConfig) : Except PyExc Bool :=
  match c.system with
  | none => .error .attributeError
  | some sys =>
    if sys.hostname = "" then .ok false
    else
      match c.interfaces with
      | none => .error .attributeError
      | some ifs =>
        if ifs.lan.ipaddr = "" then .ok false
        else
          match validate_dhcp_range_consistency c with
          | .error e => .error e
          | .ok false => .ok false
          | .ok true =>
            match validate_dhcp_subnet_consistency c with
            | .error e => .error e
            | .ok false => .ok false
            | .ok true => .ok true

/-- `validate_pfsense_config`: the catch-all `except Exception` converts
any exception escaping the body into `return False`. -/
def validate_pfsense_config (c : PfSenseConfig) : Bool :=
  match validateBody c with
  | .ok b => b
  | .error _ => false

/-- The named checks of `validate_pfsense_config`, in source order. -/
inductive Check where
  | hostname
  | lanIp
  | rangeConsistency
  | subnetContainment
deriving DecidableEq, Repr

/-- Which checks `validate_pfsense_config` actually evaluates on a given
configuration, following the early `return False` statements of the
source: a failing check appears in the trace but ends it. -/
def validateTrace (c : PfSenseConfig) : List Check :=
  match c.system with
  | none => []
  | some sys =>
    if sys.hostname = "" then [Check.hostname]
    else
      Check.hostname ::
        match c.interfaces with
        | none => []
        | some ifs =>
          if ifs.lan.ipaddr = "" then [Check.lanIp]
          else
            Check.lanIp ::
              Check.rangeConsistency ::
                match validate_dhcp_range_consistency c with
                | .ok true => [Check.subnetContainment]
                | _ => []

/-! ## Transport session opening (`connect`)

`connect` builds a `paramiko.SSHClient` and, inside one `try` block,
calls `client.connect` with the private key when `settings.PFSENSE_KEY_FILE`
is truthy, then calls `client.connect` with the password. A paramiko
`connect` that fails raises (`AuthenticationException` or `SSHException`),
which jumps to the handlers and re-raises `PfSenseError`. The model drives
the two calls with an environment fixing each call's outcome. -/

/-- Outcome of one `paramiko.SSHClient.connect` call. -/
inductive AuthOutcome where
  | ok
  | authException
  | sshException
deriving DecidableEq, Repr

/-- The externally configured facts `connect` depends on: whether a key
file is configured and how each of the two `client.connect` calls would
end. -/
structure ConnectEnv where
  keyFile : Option String
  keyOutcome : AuthOutcome
  passwordOutcome : AuthOutcome
deriving DecidableEq, Repr

/-- The two authentication attempts `connect` can make. -/
inductive Attempt where
  | keyAuth
  | passwordAuth
deriving DecidableEq, Repr

/-- Result of `connect`: an established client, or `PfSenseError` with the
message chosen by the matching `except` handler. -/
inductive ConnectResult where
  | client
  | pfsenseError (msg : String)
deriving DecidableEq, Repr

/-- The `client.connect` calls `connect` actually executes, in order: the
key call runs first when a key file is configured, and the password call
runs only if control reaches it (an exception in the key call jumps
straight to the handlers). -/
def connectAttempts (env : ConnectEnv) : List Attempt :=
  if optStrTruthy env.keyFile then
    match env.keyOutcome with
    | .ok => [Attempt.keyAuth, Attempt.passwordAuth]
    | _ => [Attempt.keyAuth]
  else [Attempt.passwordAuth]

/-- What `connect` returns or raises under a given environment. -/
def connectResult (env : ConnectEnv) : ConnectResult :=
  let finish : AuthOutcome → ConnectResult := fun o =>
    match o with
    | .ok => .client
    | .authException => .pfsenseError "Authentication failed"
    | .sshException => .pfsenseError "SSH connection failed"
  if optStrTruthy env.keyFile then
    match env.keyOutcome with
    | .ok => finish env.passwordOutcome
    | .authException => .pfsenseError "Authentication failed"
    | .sshException => .pfsenseError "SSH connection failed"
  else finish env.passwordOutcome

/-! ## Orchestrators (`fetch_pfsense_config`, `push_pfsense_config`)

Each remote call is driven by an environment flag saying whether the call
itself raises (paramiko raises on transport failure; neither function
wraps the calls in `try`/`finally`). `exec_command` in `push` never checks
exit statuses, so a non-zero exit of `cp`/`mv`/`rm`/reload is not a
failure there; in `fetch` the `cat` exit status is checked explicitly. -/

/-- Events of `push_pfsense_config`, in source order. -/
inductive PushEvent where
  | connectOpen
  | backupCopyCmd
  | sftpOpen
  | uploadStaging
  | sftpClosed
  | moveLiveCmd
  | removeCacheCmd
  | reloadCmd
  | clientClose
deriving DecidableEq, Repr

/-- Which calls of `push_pfsense_config` raise: `true` means the call
returns normally. Local steps (`model_dump`, `unparse`, the temp file) are
not modelled as failing. -/
structure PushEnv where
  connectOk : Bool
  backupCmdOk : Bool
  sftpOpenOk : Bool
  uploadOk : Bool
  moveCmdOk : Bool
  removeCmdOk : Bool
  reloadCmdOk : Bool
deriving DecidableEq, Repr

/-- Failure surfaced by `push_pfsense_config`: every failing step raises
out of the function (there is no handler), so the result is an exception
naming the step. -/
inductive PushErr where
  | connectFailed
  | backupCmdRaised
  | sftpOpenRaised
  | uploadRaised
  | moveCmdRaised
  | removeCmdRaised
  | reloadCmdRaised
deriving DecidableEq, Repr

/-- One run of `push_pfsense_config`: the events that completed, and
either the returned value or the exception that escaped. A raising call
ends the run; no later call (in particular `client.close()`) happens. -/
def pushRun (e : PushEnv) : List PushEvent × Except PushErr Nat :=
  if ¬ e.connectOk then ([], .error .connectFailed)
  else if ¬ e.backupCmdOk then ([.connectOpen], .error .backupCmdRaised)
  else if ¬ e.sftpOpenOk then
    ([.connectOpen, .backupCopyCmd], .error .sftpOpenRaised)
  else if ¬ e.uploadOk then
    ([.connectOpen, .backupCopyCmd, .sftpOpen], .error .uploadRaised)
  else if ¬ e.moveCmdOk then
    ([.connectOpen, .backupCopyCmd, .sftpOpen, .uploadStaging, .sftpClosed],
      .error .moveCmdRaised)
  else if ¬ e.removeCmdOk then
    ([.connectOpen, .backupCopyCmd, .sftpOpen, .uploadStaging, .sftpClosed,
      .moveLiveCmd], .error .removeCmdRaised)
  else if ¬ e.reloadCmdOk then
    ([.connectOpen, .backupCopyCmd, .sftpOpen, .uploadStaging, .sftpClosed,
      .moveLiveCmd, .removeCacheCmd], .error .reloadCmdRaised)
  else
    ([.connectOpen, .backupCopyCmd, .sftpOpen, .uploadStaging, .sftpClosed,
      .moveLiveCmd, .removeCacheCmd, .reloadCmd, .clientClose], .ok 1)

/-- The events `push_pfsense_config` completes. -/
def pushTrace (e : PushEnv) : List PushEvent := (pushRun e).1

/-- The value `push_pfsense_config` returns, or the exception it raises. -/
def pushResult (e : PushEnv) : Except PushErr Nat := (pushRun e).2

/-- All remote calls of a push succeed. -/
def pushAllOk (e : PushEnv) : Bool :=
  e.connectOk && e.backupCmdOk && e.sftpOpenOk && e.uploadOk &&
    e.moveCmdOk && e.removeCmdOk && e.reloadCmdOk

/-- The externally visible remote side effects of `push`, in the claim's
vocabulary. -/
inductive RemoteEffect where
  | backupCopy
  | uploadToStaging
  | moveToLive
  | removeCache
  | reloadServices
deriving DecidableEq, Repr

/-- Which push events are remote side effects on the appliance. -/
def effectOfEvent : PushEvent → Option RemoteEffect
  | .backupCopyCmd => some .backupCopy
  | .uploadStaging => some .uploadToStaging
  | .moveLiveCmd => some .moveToLive
  | .removeCacheCmd => some .removeCache
  | .reloadCmd => some .reloadServices
  | _ => none

/-- The remote side effects a push run issues, in order. -/
def pushEffects (e : PushEnv) : List RemoteEffect :=
  (pushTrace e).filterMap effectOfEvent

/-- Events of `fetch_pfsense_config`, in source order. -/
inductive FetchEvent where
  | connectOpen
  | catCmd
  | clientClose
deriving DecidableEq, Repr

/-- Which calls of `fetch_pfsense_config` raise or fail: `connectOk` and
`catCmdOk` say the calls return; `catExit` is the `cat` exit status;
`parseOk` says the XML/schema decode (run after the session is closed)
succeeds. -/
structure FetchEnv where
  connectOk : Bool
  catCmdOk : Bool
  catExit : Nat
  parseOk : Bool
deriving DecidableEq, Repr

/-- Failure surfaced by `fetch_pfsense_config`. -/
inductive FetchErr where
  | connectFailed
  | execRaised
  | fetchFailed
  | schemaMismatch
deriving DecidableEq, Repr

/-- One run of `fetch_pfsense_config`: the non-zero-exit path closes the
client and then raises `PfSenseError`; the success path closes the client
and then decodes, so a decode failure also happens after the close; a
raising `exec_command` ends the run before any close. -/
def fetchRun (e : FetchEnv) : List FetchEvent × Except FetchErr Unit :=
  if ¬ e.connectOk then ([], .error .connectFailed)
  else if ¬ e.catCmdOk then ([.connectOpen], .error .execRaised)
  else if e.catExit ≠ 0 then
    ([.connectOpen, .catCmd, .clientClose], .error .fetchFailed)
  else if ¬ e.parseOk then
    ([.connectOpen, .catCmd, .clientClose], .error .schemaMismatch)
  else ([.connectOpen, .catCmd, .clientClose], .ok ())

/-- The events `fetch_pfsense_config` completes. -/
def fetchTrace (e : FetchEnv) : List FetchEvent := (fetchRun e).1

/-! ## Codec

Modelled from the spec: the wire format handling is
`xmltodict.parse(.., force_list=("user", "group", "staticmap"))` plus the
Pydantic projection (`PfSenseConfig(**d["pfsense"])`) on the way in, and
`model_dump(by_alias=True)` plus `xmltodict.unparse` on the way out; the
Pydantic schema itself is not under `src/`. The model works at the XML
element level: a document is the list of children of the `pfsense` root,
`decode` projects it onto the schema (`none` is `SchemaMismatch`), and
list-forcing is "collect every occurrence of the element name". -/

/-- An XML element tree: tagged elements and text. -/
inductive XNode where
  | elem (tag : String) (children : List XNode)
  | text (s : String)

/-- Decimal digit to its character. -/
def digitChar (d : Nat) : Char := Char.ofNat (48 + d)

/-- Character to its decimal digit value. -/
def charDigit (c : Char) : Nat := c.toNat - 48

/-- Decimal rendering of a natural number, as on the XML wire. -/
def encNat (n : Nat) : String :=
  if n = 0 then "0" else ⟨((Nat.digits 10 n).map digitChar).reverse⟩

/-- Parse a decimal natural number from the XML wire (the integer
coercion of the schema's `subnet` field). -/
def decNat (s : String) : Option Nat :=
  if s.data = [] then none
  else if s.data.all (fun c => c.isDigit) then
    some (Nat.ofDigits 10 ((s.data.map charDigit).reverse))
  else none

/-- A leaf field: `<tag>s</tag>`. -/
def encStr (tag : String) (s : String) : XNode := .elem tag [.text s]

/-- An optional leaf field: absent fields produce no element. -/
def encOptStr (tag : String) : Option String → List XNode
  | none => []
  | some s => [encStr tag s]

/-- An optional section: absent sections produce no element. -/
def encOptNode {α : Type} (f : α → XNode) : Option α → List XNode
  | none => []
  | some a => [f a]

/-- Encode `dhcpd.lan.range`. -/
def encRange (r : DhcpRange) : XNode :=
  .elem "range" (encOptStr "from" r.from_ ++ encOptStr "to" r.to_)

/-- Encode `dhcpd.lan`. -/
def encDhcpdLan (l : DhcpdLan) : XNode :=
  .elem "lan" (encOptNode encRange l.range)

/-- Encode `dhcpd`. -/
def encDhcpd (d : Dhcpd) : XNode :=
  .elem "dhcpd" (encOptNode encDhcpdLan d.lan)

/-- Encode `interfaces.lan`. -/
def encLanInterface (l : LanInterface) : XNode :=
  .elem "lan" [encStr "ipaddr" l.ipaddr, encStr "subnet" (encNat l.subnet)]

/-- Encode `interfaces`. -/
def encInterfaces (i : Interfaces) : XNode :=
  .elem "interfaces" [encLanInterface i.lan]

/-- Encode `system`. -/
def encSystem (s : SystemSection) : XNode :=
  .elem "system" [encStr "hostname" s.hostname]

/-- `encode`: the children of the `pfsense` root element produced from a
document, one element per repeated-collection entry. -/
def encode (c : PfSenseConfig) : List XNode :=
  encOptNode encSystem c.system ++ encOptNode encInterfaces c.interfaces ++
    encOptNode encDhcpd c.dhcpd ++ c.users.map (encStr "user") ++
    c.groups.map (encStr "group") ++ c.staticMaps.map (encStr "staticmap")

/-- First element with the given tag, as in keyed dictionary access on the
parsed document. -/
def findElem (tag : String) : List XNode → Option (List XNode)
  | [] => none
  | XNode.elem t ch :: rest => if t = tag then some ch else findElem tag rest
  | XNode.text _ :: rest => findElem tag rest

/-- The text content of a leaf element's children. -/
def getText : List XNode → Option String
  | [XNode.text s] => some s
  | _ => none

/-- A required string field: absence or a non-leaf shape is a schema
mismatch. -/
def decReqStr (tag : String) (l : List XNode) : Option String :=
  (findElem tag l).bind getText

/-- An optional string field: absence decodes to `none`, a present but
non-leaf shape is a schema mismatch. -/
def decOptStr (tag : String) (l : List XNode) : Option (Option String) :=
  match findElem tag l with
  | none => some none
  | some ch => (getText ch).map some

/-- The text of a leaf element carrying the given tag, if this node is
one. -/
def collectFn (tag : String) : XNode → Option String
  | XNode.elem t [XNode.text s] => if t = tag then some s else none
  | _ => none

/-- List-forcing: every element with the given (leaf) tag, in document
order, regardless of how many there are. -/
def collectTagTexts (tag : String) (l : List XNode) : List String :=
  l.filterMap (collectFn tag)

/-- Decode the `system` section. -/
def decSystem (l : List XNode) : Option (Option SystemSection) :=
  match findElem "system" l with
  | none => some none
  | some ch => (decReqStr "hostname" ch).map (fun h => some ⟨h⟩)

/-- Decode `interfaces.lan`. -/
def decLanInterface (ch : List XNode) : Option LanInterface :=
  match decReqStr "ipaddr" ch, decReqStr "subnet" ch with
  | some ip, some sn =>
    match decNat sn with
    | some n => some ⟨ip, n⟩
    | none => none
  | _, _ => none

/-- Decode the `interfaces` section. -/
def decInterfaces (l : List XNode) : Option (Option Interfaces) :=
  match findElem "interfaces" l with
  | none => some none
  | some ch =>
    match findElem "lan" ch with
    | none => none
    | some lch => (decLanInterface lch).map (fun li => some ⟨li⟩)

/-- Decode `dhcpd.lan.range`. -/
def decRange (ch : List XNode) : Option DhcpRange :=
  match decOptStr "from" ch, decOptStr "to" ch with
  | some f, some t => some ⟨f, t⟩
  | _, _ => none

/-- Decode `dhcpd.lan`. -/
def decDhcpdLan (ch : List XNode) : Option DhcpdLan :=
  match findElem "range" ch with
  | none => some ⟨none⟩
  | some rch => (decRange rch).map (fun r => ⟨some r⟩)

/-- Decode the `dhcpd` section. -/
def decDhcpd (l : List XNode) : Option (Option Dhcpd) :=
  match findElem "dhcpd" l with
  | none => some none
  | some ch =>
    match findElem "lan" ch with
    | none => some (some ⟨none⟩)
    | some lch => (decDhcpdLan lch).map (fun dl => some ⟨some dl⟩)

/-- `decode`: project the children of the `pfsense` root onto the schema;
`none` models a Pydantic validation failure (`SchemaMismatch`). -/
def decode (l : List XNode) : Option PfSenseConfig :=
  match decSystem l, decInterfaces l, decDhcpd l with
  | some sys, some ifs, some dh =>
    some ⟨sys, ifs, dh, collectTagTexts "user" l, collectTagTexts "group" l,
      collectTagTexts "staticmap" l⟩
  | _, _, _ => none

/-! ## Concrete inputs used by witnesses and counterexamples -/

/-- A configuration whose DHCP `from` endpoint is the sentinel `"dhcp"`
and which is otherwise fully valid. -/
def cfgSentinelFrom : PfSenseConfig :=
  ⟨some ⟨"pfsense"⟩, some ⟨⟨"192.168.1.1", 24⟩⟩,
    some ⟨some ⟨some ⟨some "dhcp", some "192.168.1.100"⟩⟩⟩, [], [], []⟩

/-- A fully valid configuration with an ordered DHCP range. -/
def cfgRangeGood : PfSenseConfig :=
  ⟨some ⟨"pfsense"⟩, some ⟨⟨"192.168.1.1", 24⟩⟩,
    some ⟨some ⟨some ⟨some "192.168.1.50", some "192.168.1.100"⟩⟩⟩,
    [], [], []⟩

/-- The spec's reversed range: `from = "192.168.1.100"`,
`to = "192.168.1.50"`. -/
def cfgRangeBad : PfSenseConfig :=
  ⟨some ⟨"pfsense"⟩, some ⟨⟨"192.168.1.1", 24⟩⟩,
    some ⟨some ⟨some ⟨some "192.168.1.100", some "192.168.1.50"⟩⟩⟩,
    [], [], []⟩

/-- The spec's out-of-subnet range: `to = "192.168.2.10"` is outside
`192.168.1.0/24`. -/
def cfgSubnetBad : PfSenseConfig :=
  ⟨some ⟨"pfsense"⟩, some ⟨⟨"192.168.1.1", 24⟩⟩,
    some ⟨some ⟨some ⟨some "192.168.1.50", some "192.168.2.10"⟩⟩⟩,
    [], [], []⟩

/-- A configuration whose `system` section is missing altogether. -/
def cfgNoSystem : PfSenseConfig :=
  ⟨none, some ⟨⟨"192.168.1.1", 24⟩⟩, none, [], [], []⟩

/-- A connect environment: key file configured, the key `connect` call
raises `AuthenticationException`, a password `connect` call would
succeed. -/
def envKeyFail : ConnectEnv :=
  ⟨some "/conf/sshkey", AuthOutcome.authException, AuthOutcome.ok⟩

/-- A push in which every remote call returns. -/
def envPushOk : PushEnv := ⟨true, true, true, true, true, true, true⟩

/-- A push in which `sftp.put` raises. -/
def envPushUploadFail : PushEnv := ⟨true, true, true, false, true, true, true⟩

/-! ## Codec lemmas -/

theorem charDigit_digitChar {d : Nat} (h : d < 10) :
    charDigit (digitChar d) = d := by
  interval_cases d <;> decide

theorem isDigit_digitChar {d : Nat} (h : d < 10) :
    (digitChar d).isDigit = true := by
  interval_cases d <;> decide

/-- The subnet integer survives its trip through the decimal wire text. -/
theorem decNat_encNat (n : Nat) : decNat (encNat n) = some n := by
  rcases Nat.eq_zero_or_pos n with h0 | hp
  · subst h0; decide
  · have hne : n ≠ 0 := hp.ne'
    have hdig : Nat.digits 10 n ≠ [] := Nat.digits_ne_nil_iff_ne_zero.mpr hne
    have hlt : ∀ d ∈ Nat.digits 10 n, d < 10 := fun d hd =>
      Nat.digits_lt_base (by norm_num) hd
    have hdata :
        (String.mk (((Nat.digits 10 n).map digitChar).reverse)).data
          = ((Nat.digits 10 n).map digitChar).reverse := rfl
    have hnil : ((Nat.digits 10 n).map digitChar).reverse ≠ [] := by
      simp [hdig]
    have hall :
        (((Nat.digits 10 n).map digitChar).reverse).all
          (fun c => c.isDigit) = true := by
      rw [List.all_eq_true]
      intro c hc
      rw [List.mem_reverse, List.mem_map] at hc
      obtain ⟨d, hd, rfl⟩ := hc
      exact isDigit_digitChar (hlt d hd)
    have hmap :
        (((((Nat.digits 10 n).map digitChar).reverse).map charDigit).reverse)
          = Nat.digits 10 n := by
      rw [List.map_reverse, List.reverse_reverse, List.map_map]
      have hcd : ∀ d ∈ Nat.digits 10 n, (charDigit ∘ digitChar) d = id d :=
        fun d hd => charDigit_digitChar (hlt d hd)
      rw [List.map_congr_left hcd, List.map_id]
    simp only [encNat, if_neg hne, decNat, hdata, if_neg hnil, hall, if_pos,
      if_true, hmap, Nat.ofDigits_digits]

theorem findElem_append (tag : String) (xs ys : List XNode) :
    findElem tag (xs ++ ys) = (findElem tag xs).or (findElem tag ys) := by
  induction xs with
  | nil => simp [findElem]
  | cons x rest ih =>
    cases x with
    | elem t ch =>
      by_cases h : t = tag <;> simp [findElem, h, ih, Option.or]
    | text s => simp [findElem, ih]

theorem findElem_map_encStr {tag t : String} (h : t ≠ tag)
    (us : List String) : findElem tag (us.map (encStr t)) = none := by
  induction us with
  | nil => simp [findElem]
  | cons u rest ih => simp [findElem, encStr, h, ih]

theorem filterMap_collectFn_map_same (tag : String) (us : List String) :
    us.filterMap (collectFn tag ∘ encStr tag) = us := by
  induction us with
  | nil => simp
  | cons u rest ih => simp [collectFn, encStr, ih]

theorem filterMap_collectFn_map_ne {tag t : String} (h : t ≠ tag)
    (us : List String) :
    us.filterMap (collectFn tag ∘ encStr t) = [] := by
  induction us with
  | nil => simp
  | cons u rest ih => simp [collectFn, encStr, h, ih]

theorem decRange_encRange (r : DhcpRange) :
    decRange (encOptStr "from" r.from_ ++ encOptStr "to" r.to_) = some r := by
  obtain ⟨f, t⟩ := r
  cases f <;> cases t <;>
    simp [decRange, decOptStr, encOptStr, encStr, findElem, getText]

/-- Claim C5: for every document representable by the schema, decoding the
encoding yields a field-equal document: `decode (encode c) = some c`. -/
theorem decode_encode_roundtrip (c : PfSenseConfig) :
    decode (encode c) = some c := by
  obtain ⟨sys, ifs, dh, us, gs, ms⟩ := c
  rcases sys with _ | ⟨h⟩ <;> rcases ifs with _ | ⟨⟨ip, sn⟩⟩ <;>
    rcases dh with _ | ⟨_ | ⟨_ | r⟩⟩ <;>
    simp [decode, encode, decSystem, decInterfaces, decDhcpd, decDhcpdLan,
      decLanInterface, decReqStr, collectTagTexts, encOptNode, encSystem,
      encInterfaces, encDhcpd, encDhcpdLan, encLanInterface, encRange,
      encStr, findElem, findElem_append, getText, decNat_encNat,
      decRange_encRange, findElem_map_encStr, filterMap_collectFn_map_same,
      filterMap_collectFn_map_ne, Option.or, collectFn]

/-! ## Validator lemmas -/

/-- `validate_pfsense_config` returns `True` exactly when every one of
its four checks passes (and no section access raised). -/
theorem validate_true_iff (c : PfSenseConfig) :
    validate_pfsense_config c = true ↔
      (∃ sys, c.system = some sys ∧ sys.hostname ≠ "") ∧
      (∃ ifs, c.interfaces = some ifs ∧ ifs.lan.ipaddr ≠ "") ∧
      validate_dhcp_range_consistency c = Except.ok true ∧
      validate_dhcp_subnet_consistency c = Except.ok true := by
  obtain ⟨sys, ifs, dh, us, gs, ms⟩ := c
  unfold validate_pfsense_config validateBody
  cases sys with
  | none => simp
  | some s =>
    by_cases hh : s.hostname = ""
    · simp [hh]
    · cases ifs with
      | none => simp [hh]
      | some i =>
        by_cases hip : i.lan.ipaddr = ""
        · simp [hh, hip]
        · cases hr : validate_dhcp_range_consistency
              ⟨some s, some i, dh, us, gs, ms⟩ with
          | error e => simp [hh, hip, hr]
          | ok b =>
            cases b with
            | false => simp [hh, hip, hr]
            | true =>
              cases hsub : validate_dhcp_subnet_consistency
                  ⟨some s, some i, dh, us, gs, ms⟩ with
              | error e => simp [hh, hip, hr, hsub]
              | ok b2 => cases b2 <;> simp [hh, hip, hr, hsub]

/-- A failed range-consistency check makes `validate_pfsense_config`
return `False`. -/
theorem validate_false_of_range_fail {c : PfSenseConfig}
    (h : validate_dhcp_range_consistency c = Except.ok false) :
    validate_pfsense_config c = false := by
  cases hv : validate_pfsense_config c with
  | false => rfl
  | true =>
    obtain ⟨-, -, hr, -⟩ := (validate_true_iff c).mp hv
    exact absurd (h.symm.trans hr) (by simp)

/-- A failed subnet-containment check makes `validate_pfsense_config`
return `False`. -/
theorem validate_false_of_subnet_fail {c : PfSenseConfig}
    (h : validate_dhcp_subnet_consistency c = Except.ok false) :
    validate_pfsense_config c = false := by
  cases hv : validate_pfsense_config c with
  | false => rfl
  | true =>
    obtain ⟨-, -, -, hs⟩ := (validate_true_iff c).mp hv
    exact absurd (h.symm.trans hs) (by simp)

/-- Claim C7: when both DHCP range endpoints are present and parseable as
IPv4 addresses, the range-consistency check passes exactly when the
`from` address is strictly below the `to` address. -/
theorem range_check_ok_iff {c : PfSenseConfig} {r : DhcpRange}
    {fs ts : String} {fip tip : Nat}
    (hr : rangeOf c = some r) (hf : r.from_ = some fs) (hfne : fs ≠ "")
    (ht : r.to_ = some ts) (htne : ts ≠ "")
    (hpf : parseIPv4 fs = some fip) (hpt : parseIPv4 ts = some tip) :
    validate_dhcp_range_consistency c = Except.ok true ↔ fip < tip := by
  unfold validate_dhcp_range_consistency
  rw [hr]
  simp [hf, ht, optStrTruthy, hfne, htne, hpf, hpt]

/-- Witness for C7 at the spec's two examples: `192.168.1.50 <
192.168.1.100` passes and the reversed pair fails. -/
theorem range_check_ok_iff_witness :
    (validate_dhcp_range_consistency cfgRangeGood = Except.ok true ↔
      (3232235826 : Nat) < 3232235876) ∧
    (validate_dhcp_range_consistency cfgRangeBad = Except.ok true ↔
      (3232235876 : Nat) < 3232235826) :=
  ⟨range_check_ok_iff
      (by decide :
        rangeOf cfgRangeGood =
          some ⟨some "192.168.1.50", some "192.168.1.100"⟩)
      rfl (by decide) rfl (by decide)
      (by decide : parseIPv4 "192.168.1.50" = some 3232235826)
      (by decide : parseIPv4 "192.168.1.100" = some 3232235876),
    range_check_ok_iff
      (by decide :
        rangeOf cfgRangeBad =
          some ⟨some "192.168.1.100", some "192.168.1.50"⟩)
      rfl (by decide) rfl (by decide)
      (by decide : parseIPv4 "192.168.1.100" = some 3232235876)
      (by decide : parseIPv4 "192.168.1.50" = some 3232235826)⟩

/-- Counterexample for C1: with `from = "dhcp"` (present but not
parseable) and everything else valid, the range-consistency check
returns `False` (it is not skipped) and `validate_pfsense_config`
rejects the configuration; only the subnet-containment check skips the
sentinel. -/
theorem sentinel_from_rejected_counterexample :
    validate_dhcp_range_consistency cfgSentinelFrom = Except.ok false ∧
    validate_dhcp_subnet_consistency cfgSentinelFrom = Except.ok true ∧
    validate_pfsense_config cfgSentinelFrom = false := by
  refine ⟨rfl, rfl, by decide⟩

/-- Claim C1 as amended: a present but unparseable `from` endpoint makes
the range-consistency check return `False` (its `except ValueError`
handler), so `validate_pfsense_config` rejects the configuration instead
of skipping the check. -/
theorem unparseable_from_fails_range_check {c : PfSenseConfig}
    {r : DhcpRange} {fs : String}
    (hr : rangeOf c = some r) (hf : r.from_ = some fs) (hfne : fs ≠ "")
    (ht : optStrTruthy r.to_ = true) (hpf : parseIPv4 fs = none) :
    validate_dhcp_range_consistency c = Except.ok false ∧
      validate_pfsense_config c = false := by
  have hrc : validate_dhcp_range_consistency c = Except.ok false := by
    cases hto : r.to_ with
    | none => rw [hto] at ht; simp [optStrTruthy] at ht
    | some ts =>
      rw [hto] at ht
      simp only [optStrTruthy, Bool.not_eq_true', decide_eq_false_iff_not] at ht
      unfold validate_dhcp_range_consistency
      rw [hr]
      cases hpt : parseIPv4 ts <;>
        simp [hf, hto, hpf, hpt, optStrTruthy, hfne, ht]
  exact ⟨hrc, validate_false_of_range_fail hrc⟩

/-- Witness for the amended C1 at the sentinel configuration. -/
theorem unparseable_from_fails_range_check_witness :
    validate_dhcp_range_consistency cfgSentinelFrom = Except.ok false ∧
      validate_pfsense_config cfgSentinelFrom = false :=
  unparseable_from_fails_range_check
    (by decide :
      rangeOf cfgSentinelFrom = some ⟨some "dhcp", some "192.168.1.100"⟩)
    rfl (by decide) (by decide) (by decide)

/-- Claim C8: when the LAN network is formed from
`interfaces.lan.ipaddr/subnet` and both parseable DHCP endpoints are
present, `validate_pfsense_config` rejects the configuration whenever
either endpoint lies outside that network. -/
theorem subnet_violation_rejected {c : PfSenseConfig} {ifs : Interfaces}
    {r : DhcpRange} {fs ts : String} {lanIp fip tip : Nat}
    (hi : c.interfaces = some ifs)
    (hlan : parseIPv4 ifs.lan.ipaddr = some lanIp)
    (hsub : ifs.lan.subnet ≤ 32)
    (hr : rangeOf c = some r)
    (hf : r.from_ = some fs) (hfne : fs ≠ "")
    (ht : r.to_ = some ts) (htne : ts ≠ "")
    (hpf : parseIPv4 fs = some fip) (hpt : parseIPv4 ts = some tip)
    (hout : ¬(inNetwork (lanIp, ifs.lan.subnet) fip = true ∧
      inNetwork (lanIp, ifs.lan.subnet) tip = true)) :
    validate_pfsense_config c = false := by
  have hb : (inNetwork (lanIp, ifs.lan.subnet) fip &&
      inNetwork (lanIp, ifs.lan.subnet) tip) = false := by
    cases hA : inNetwork (lanIp, ifs.lan.subnet) fip <;>
      cases hB : inNetwork (lanIp, ifs.lan.subnet) tip <;> simp_all
  have hsc : validate_dhcp_subnet_consistency c = Except.ok false := by
    unfold validate_dhcp_subnet_consistency pyIPv4Network
    rw [hi]
    simp [hlan, hsub, hr, hf, ht, optStrTruthy, hfne, htne, hpf, hpt, hb]
  exact validate_false_of_subnet_fail hsc

/-- Witness for C8 at the spec's example: `192.168.2.10` is outside
`192.168.1.0/24`, so the document is rejected. -/
theorem subnet_violation_rejected_witness :
    validate_pfsense_config cfgSubnetBad = false :=
  subnet_violation_rejected
    (by decide : cfgSubnetBad.interfaces = some ⟨⟨"192.168.1.1", 24⟩⟩)
    (by decide : parseIPv4 "192.168.1.1" = some 3232235777)
    (by decide)
    (by decide :
      rangeOf cfgSubnetBad =
        some ⟨some "192.168.1.50", some "192.168.2.10"⟩)
    rfl (by decide) rfl (by decide)
    (by decide : parseIPv4 "192.168.1.50" = some 3232235826)
    (by decide : parseIPv4 "192.168.2.10" = some 3232236042)
    (by decide)

/-- Claim C10: any exception escaping the checks of
`validate_pfsense_config`'s `try` block is caught by its
`except Exception` handler and converted into the boolean `False`, so the
(total) function returns a boolean on every input. -/
theorem validate_catches_exceptions {c : PfSenseConfig} {e : PyExc}
    (h : validateBody c = Except.error e) :
    validate_pfsense_config c = false := by
  unfold validate_pfsense_config
  rw [h]

/-- Witness for C10: a configuration with no `system` section makes the
hostname check raise `AttributeError`, and validation returns `False`. -/
theorem validate_catches_exceptions_witness :
    validate_pfsense_config cfgNoSystem = false :=
  validate_catches_exceptions
    (rfl : validateBody cfgNoSystem = Except.error PyExc.attributeError)

/-- Counterexample for C2: when the range-consistency check fails (the
spec's reversed range), validation returns immediately and the
subnet-containment check is never evaluated. -/
theorem checks_short_circuit_counterexample :
    validateTrace cfgRangeBad =
      [Check.hostname, Check.lanIp, Check.rangeConsistency] ∧
    Check.subnetContainment ∉ validateTrace cfgRangeBad ∧
    validate_pfsense_config cfgRangeBad = false := by
  refine ⟨rfl, by decide, by decide⟩

/-- Claim C2 as amended: the checks run in source order and every failure
short-circuits — the range-consistency check is evaluated exactly when
the hostname and LAN-address checks passed, and the subnet-containment
check exactly when those passed and range-consistency returned `True`. -/
theorem checks_evaluated_iff (c : PfSenseConfig) :
    (Check.rangeConsistency ∈ validateTrace c ↔
      (∃ sys, c.system = some sys ∧ sys.hostname ≠ "") ∧
      (∃ ifs, c.interfaces = some ifs ∧ ifs.lan.ipaddr ≠ "")) ∧
    (Check.subnetContainment ∈ validateTrace c ↔
      (∃ sys, c.system = some sys ∧ sys.hostname ≠ "") ∧
      (∃ ifs, c.interfaces = some ifs ∧ ifs.lan.ipaddr ≠ "") ∧
      validate_dhcp_range_consistency c = Except.ok true) := by
  obtain ⟨sys, ifs, dh, us, gs, ms⟩ := c
  unfold validateTrace
  cases sys with
  | none => simp
  | some s =>
    by_cases hh : s.hostname = ""
    · simp [hh]
    · cases ifs with
      | none => simp [hh]
      | some i =>
        by_cases hip : i.lan.ipaddr = ""
        · simp [hh, hip]
        · cases hr : validate_dhcp_range_consistency
              ⟨some s, some i, dh, us, gs, ms⟩ with
          | error e => simp [hh, hip, hr]
          | ok b => cases b <;> simp [hh, hip, hr]

/-- Counterexample for C3: when a key file is configured and the
key-based `connect` raises `AuthenticationException`, control jumps to
the `except` handlers — the password `connect` is never executed and
`connect` raises `PfSenseError`. -/
theorem connect_key_failure_counterexample :
    connectAttempts envKeyFail = [Attempt.keyAuth] ∧
    Attempt.passwordAuth ∉ connectAttempts envKeyFail ∧
    connectResult envKeyFail =
      ConnectResult.pfsenseError "Authentication failed" := by
  refine ⟨by decide, by decide, by decide⟩

/-- Claim C3 as amended: the password `connect` call is executed exactly
when no key file is configured or the key-based `connect` returned
without raising; a key-call exception skips it. -/
theorem connect_password_attempt_iff (env : ConnectEnv) :
    Attempt.passwordAuth ∈ connectAttempts env ↔
      optStrTruthy env.keyFile = false ∨ env.keyOutcome = AuthOutcome.ok := by
  obtain ⟨kf, ko, po⟩ := env
  unfold connectAttempts
  cases hk : optStrTruthy kf <;> cases ko <;> simp [hk]

/-- Counterexample for C4: when `sftp.put` raises, the exception escapes
`push_pfsense_config` (there is no `try`/`finally`) and `client.close()`
is never invoked. -/
theorem push_close_skipped_counterexample :
    (pushTrace envPushUploadFail).count PushEvent.clientClose = 0 ∧
    pushResult envPushUploadFail = Except.error PushErr.uploadRaised := by
  refine ⟨by decide, rfl⟩

/-- Claim C4 as amended: `close` is invoked exactly once on the paths
that reach it — a push closes iff every remote call returns, a fetch
closes iff `connect` and `exec_command` return (both the non-zero-exit
failure path and the success path close) — and not at all when an
intermediate call raises. -/
theorem close_called_iff_no_exception (pe : PushEnv) (fe : FetchEnv) :
    (pushTrace pe).count PushEvent.clientClose =
      (if pushAllOk pe then 1 else 0) ∧
    (fetchTrace fe).count FetchEvent.clientClose =
      (if fe.connectOk && fe.catCmdOk then 1 else 0) := by
  constructor
  · obtain ⟨a, b, c, d, e, f, g⟩ := pe
    cases a <;> cases b <;> cases c <;> cases d <;> cases e <;> cases f <;>
      cases g <;> decide
  · obtain ⟨a, b, x, p⟩ := fe
    by_cases hx : x = 0 <;> cases a <;> cases b <;> cases p <;>
      simp [fetchTrace, fetchRun, hx, List.count_cons, List.count_nil]

/-- Claim C6: a push in which every remote call returns issues exactly
the backup-copy, upload-to-staging, move-to-live, remove-cache, reload
side effects, in that order. -/
theorem push_effect_order {pe : PushEnv} (h : pushAllOk pe = true) :
    pushEffects pe =
      [RemoteEffect.backupCopy, RemoteEffect.uploadToStaging,
        RemoteEffect.moveToLive, RemoteEffect.removeCache,
        RemoteEffect.reloadServices] := by
  obtain ⟨a, b, c, d, e, f, g⟩ := pe
  simp only [pushAllOk, Bool.and_eq_true] at h
  obtain ⟨⟨⟨⟨⟨⟨ha, hb⟩, hc⟩, hd⟩, he⟩, hf⟩, hg⟩ := h
  subst ha hb hc hd he hf hg
  decide

/-- Witness for C6 at the all-success environment. -/
theorem push_effect_order_witness :
    pushEffects envPushOk =
      [RemoteEffect.backupCopy, RemoteEffect.uploadToStaging,
        RemoteEffect.moveToLive, RemoteEffect.removeCache,
        RemoteEffect.reloadServices] :=
  push_effect_order (by decide)

/-- Claim C9: whenever `push_pfsense_config` returns instead of raising,
the returned value is `1`; the documented failure value `0` is never
returned. -/
theorem push_returns_only_one (pe : PushEnv) (n : Nat)
    (h : pushResult pe = Except.ok n) : n = 1 := by
  obtain ⟨a, b, c, d, e, f, g⟩ := pe
  unfold pushResult pushRun at h
  cases a <;> cases b <;> cases c <;> cases d <;> cases e <;> cases f <;>
    cases g <;> simp_all

/-- Witness for C9 at the all-success environment. -/
theorem push_returns_only_one_witness : (1 : Nat) = 1 :=
  push_returns_only_one envPushOk 1 rfl

end PfSense
